import Mathlib

/-!
Shallow embedding of the authentication and access-control core of
MCC_RadioTrack (`auth.py`, `config.py`, `db_manager.py`).

Conventions:
* Clock time is a natural number of seconds (`now : Nat`); Python
  `datetime.now()` becomes an explicit `now` argument, `timedelta(minutes=m)`
  becomes `m * 60` seconds and `timedelta(days=d)` becomes `d * 86400`.
* The SQLite database is an explicit `DB` value threaded through each
  operation; SQL statements are modelled by list operations over the rows.
* bcrypt is an external primitive: it is modelled as an ideal salted hash,
  deterministic in `(password, salt)` and collision-free, with the salt
  recoverable from the hash blob (as the bcrypt output format provides).
  Salt randomness (`bcrypt.gensalt`) becomes an explicit `salt : Nat`
  argument supplied per call.
-/

namespace RadioTrack

/-- `config.py`: `ROLE_HIERARCHY` — role hierarchy for permission checks. -/
def ROLE_HIERARCHY : List (String × Nat) :=
  [("employee", 1), ("manager", 2), ("admin", 3), ("corrections_supervisor", 3)]

/-- `config.py`: `PASSWORD_EXPIRY_DAYS` (default `"60"`). -/
def PASSWORD_EXPIRY_DAYS : Nat := 60

/-- `auth.py`: module constant `_MAX_ATTEMPTS = 5`. -/
def MAX_ATTEMPTS : Nat := 5

/-- `auth.py`: module constant `_LOCKOUT_MINUTES = 15`. -/
def LOCKOUT_MINUTES : Nat := 15

/-- Model of a bcrypt hash blob: the output string of `bcrypt.hashpw`
encodes the salt together with a digest determined by the password and
the salt. The digest of the ideal primitive is modelled by the password
itself (one-way-ness is irrelevant to the properties proved here; what
matters is determinism in `(password, salt)` and injectivity). -/
structure BcryptHash where
  salt : Nat
  digest : String
deriving DecidableEq

/-- Model of `bcrypt.hashpw(password_bytes, salt)`: deterministic in the
password and the salt. -/
def bcrypt_hashpw (password : String) (salt : Nat) : BcryptHash :=
  { salt := salt, digest := password }

/-- Model of `bcrypt.checkpw(password_bytes, hashed_bytes)`: re-hash the
candidate with the salt embedded in the blob and compare. -/
def bcrypt_checkpw (password : String) (hashed : BcryptHash) : Bool :=
  decide (bcrypt_hashpw password hashed.salt = hashed)

/-- `auth.py` `hash_password`: hash a password using bcrypt with a fresh
salt (`bcrypt.gensalt(rounds=12)`); the freshly generated random salt is
the explicit `salt` argument. -/
def hash_password (salt : Nat) (password : String) : BcryptHash :=
  bcrypt_hashpw password salt

/-- `auth.py` `verify_password`: verify a password against its bcrypt hash. -/
def verify_password (password : String) (hashed : BcryptHash) : Bool :=
  bcrypt_checkpw password hashed

/-- `auth.py` `validate_password_strength`: minimum length 8, and at least
one uppercase, one lowercase, one digit and one non-alphanumeric character. -/
def validate_password_strength (password : String) : Bool × String :=
  if password.length < 8 then
    (false, "Password must be at least 8 characters long")
  else
    let has_upper := password.data.any Char.isUpper
    let has_lower := password.data.any Char.isLower
    let has_digit := password.data.any Char.isDigit
    let has_special := password.data.any (fun c => !c.isAlphanum)
    if !(has_upper && has_lower && has_digit && has_special) then
      (false,
       "Password must contain at least one uppercase letter, one lowercase letter, one number, and one special character")
    else
      (true, "Password meets requirements")

/-- One row of the `employees` table (the columns the auth core touches). -/
structure Employee where
  id : Nat
  username : String
  firstName : String
  lastName : String
  userRole : String
  password : BcryptHash
  passwordChangeRequired : Bool
  isApproved : Bool
  lastPasswordChange : Option Nat
deriving DecidableEq

/-- One row of the `login_attempts` table (besides the username key). -/
structure LoginAttempt where
  failedAttempts : Nat
  lockoutUntil : Option Nat
deriving DecidableEq

/-- The database state: `employees`, `login_attempts` (keyed by username,
unique per username) and `password_history` rows (keyed by employee id,
kept newest-first as the `ORDER BY created_date DESC` read returns them). -/
structure DB where
  employees : List Employee
  loginAttempts : List (String × LoginAttempt)
  passwordHistory : List (Nat × BcryptHash)
deriving DecidableEq

/-- `SELECT ... FROM employees WHERE username = ?`. -/
def findEmployee (db : DB) (u : String) : Option Employee :=
  db.employees.find? (fun e => e.username == u)

/-- The `login_attempts` row for a username, regardless of expiry. -/
def getLoginRecord (db : DB) (u : String) : Option LoginAttempt :=
  (db.loginAttempts.find? (fun p => p.1 == u)).map Prod.snd

/-- The filter `lockout_until IS NULL OR lockout_until > CURRENT_TIMESTAMP`
of the `get_failed_login_count` query. -/
def attemptActive (now : Nat) (r : LoginAttempt) : Bool :=
  match r.lockoutUntil with
  | none => true
  | some t => decide (now < t)

/-- `auth.py` `get_failed_login_count`: number of failed login attempts for
a user, ignoring rows whose lockout has already expired; `(0, None)` when
no such row exists. -/
def get_failed_login_count (db : DB) (now : Nat) (u : String) : Nat × Option Nat :=
  match db.loginAttempts.find? (fun p => p.1 == u && attemptActive now p.2) with
  | some p => (p.2.failedAttempts, p.2.lockoutUntil)
  | none => (0, none)

/-- The lockout message produced by `check_rate_limit`:
`f"Account locked. Try again in {int((lockout_until - now).total_seconds() / 60)} minutes"`. -/
def lockMsg (k : Nat) : String :=
  "Account locked. Try again in " ++ toString k ++ " minutes"

/-- `auth.py` `check_rate_limit`: deny only while the stored attempt count
has reached `_MAX_ATTEMPTS` and the lockout timestamp is still in the
future; the message reports the remaining whole minutes (Python `int`
truncation of a positive value is floor, i.e. `Nat` division). -/
def check_rate_limit (db : DB) (now : Nat) (u : String) : Bool × Option String :=
  let ac := get_failed_login_count db now u
  match ac.2 with
  | some t =>
      if MAX_ATTEMPTS ≤ ac.1 ∧ now < t then
        (false, some (lockMsg ((t - now) / 60)))
      else
        (true, none)
  | none => (true, none)

/-- `INSERT OR REPLACE INTO login_attempts` keyed by the unique username. -/
def upsertLoginAttempt (db : DB) (u : String) (r : LoginAttempt) : DB :=
  { db with loginAttempts := (u, r) :: db.loginAttempts.filter (fun p => !(p.1 == u)) }

/-- `auth.py` `update_login_attempts`: on success delete the row for the
username; on failure re-read the active count, increment it, and upsert the
row, setting `lockout_until = now + 15 minutes` when the incremented count
reaches `_MAX_ATTEMPTS` and `NULL` otherwise. -/
def update_login_attempts (db : DB) (now : Nat) (u : String) (success : Bool) : DB :=
  if success then
    { db with loginAttempts := db.loginAttempts.filter (fun p => !(p.1 == u)) }
  else
    let attempts := (get_failed_login_count db now u).1 + 1
    let lockout_until : Option Nat :=
      if MAX_ATTEMPTS ≤ attempts then some (now + LOCKOUT_MINUTES * 60) else none
    upsertLoginAttempt db u { failedAttempts := attempts, lockoutUntil := lockout_until }

/-- Folds a sequence of failed attempts (`update_login_attempts(u, False)`)
at the given times over the database. -/
def failTimes (db : DB) (u : String) : List Nat → DB
  | [] => db
  | t :: ts => failTimes (update_login_attempts db t u false) u ts

/-- The generic credential error of `authenticate_user`. -/
def genericAuthError : String := "Invalid username or password"

/-- The approval-pending error of `authenticate_user`. -/
def pendingApprovalMsg : String := "Your account is pending admin approval"

/-- The authenticated-user dictionary returned by `authenticate_user`. -/
structure UserInfo where
  username : String
  firstName : String
  lastName : String
  role : String
  passwordChangeRequired : Bool
  id : Nat
deriving DecidableEq

/-- `auth.py` `authenticate_user`: rate-limit gate, then single-query user
lookup, approval check, password verification; failed lookups and wrong
passwords record a failed attempt and share one generic error message,
successful authentication clears the attempt row. Returns the (possibly
updated) database, the user dictionary or `none`, and the error message. -/
def authenticate_user (db : DB) (now : Nat) (username password : String) :
    DB × Option UserInfo × Option String :=
  let rl := check_rate_limit db now username
  if rl.1 = false then
    (db, none, rl.2)
  else
    match findEmployee db username with
    | none => (update_login_attempts db now username false, none, some genericAuthError)
    | some user =>
      if user.isApproved = false then
        (db, none, some pendingApprovalMsg)
      else if verify_password password user.password = false then
        (update_login_attempts db now username false, none, some genericAuthError)
      else
        (update_login_attempts db now username true,
         some { username := user.username, firstName := user.firstName,
                lastName := user.lastName, role := user.userRole,
                passwordChangeRequired := user.passwordChangeRequired, id := user.id },
         none)

/-- The `UPDATE employees SET password = ?, password_change_required = 0
WHERE username = ?` statement followed by the verification `SELECT` of
`change_password`. -/
def change_password_store (db : DB) (salt : Nat) (username newPassword : String) :
    DB × Bool × String :=
  let hashed := hash_password salt newPassword
  let db2 : DB :=
    { db with employees := db.employees.map (fun e =>
        if e.username == username then
          { e with password := hashed, passwordChangeRequired := false }
        else e) }
  if db2.employees.any (fun e => e.username == username && decide (e.password = hashed)) then
    (db2, true, "Password changed successfully")
  else
    (db2, false, "Failed to update password")

/-- `auth.py` `change_password`: when an old password is supplied it must
authenticate first (`None` skips verification — the password-reset path);
then the new password is hashed, stored, and the force-change flag cleared,
with no strength validation. -/
def change_password (db : DB) (now salt : Nat) (username : String)
    (oldPassword : Option String) (newPassword : String) : DB × Bool × String :=
  match oldPassword with
  | some oldPw =>
    let auth_result := authenticate_user db now username oldPw
    match auth_result.2.1 with
    | none => (auth_result.1, false, "Current password is incorrect")
    | some _ => change_password_store auth_result.1 salt username newPassword
  | none => change_password_store db salt username newPassword

/-- The message `f"Password expired after {PASSWORD_EXPIRY_DAYS} days"`. -/
def expiredMsg : String :=
  "Password expired after " ++ toString PASSWORD_EXPIRY_DAYS ++ " days"

/-- `auth.py` `check_password_policy`: missing row forces a change, the
administrator flag forces a change, an elapsed expiry window
(`last_change + PASSWORD_EXPIRY_DAYS < now`, strict) forces a change —
and on every remaining path the Python function falls off the end and
returns `None` (no pair at all), modelled by `Option`. -/
def check_password_policy (db : DB) (now : Nat) (u : String) : Option (Bool × String) :=
  match findEmployee db u with
  | none => some (true, "Password change required")
  | some e =>
    if e.passwordChangeRequired then
      some (true, "Password change required by administrator")
    else
      match e.lastPasswordChange with
      | some lastChange =>
        if lastChange + PASSWORD_EXPIRY_DAYS * 86400 < now then
          some (true, expiredMsg)
        else
          none
      | none => none

/-- `auth.py` `is_password_in_history`: read the newest `history_limit`
history hashes for the employee, re-hash the candidate with a *fresh*
salt, and compare for exact equality. -/
def is_password_in_history (db : DB) (salt : Nat) (employeeId : Nat)
    (newPassword : String) (historyLimit : Nat) : Bool :=
  let result := (db.passwordHistory.filter (fun p => p.1 == employeeId)).take historyLimit
  if result.isEmpty then
    false
  else
    let newHash := hash_password salt newPassword
    result.any (fun p => decide (newHash = p.2))

/-- `db_manager.py`: the error taxonomy the retry decorator catches —
`sqlite3.Error` raised by the driver, or the repository's own typed
`DatabaseError`. -/
inductive DbError where
  | sqliteError (msg : String) : DbError
  | databaseError (msg : String) : DbError
deriving DecidableEq

/-- Python `str(e)` of a caught error. -/
def errStr : DbError → String
  | .sqliteError m => m
  | .databaseError m => m

/-- The `logger.warning` line of `with_retries`:
`f"Retrying database operation ({attempt+1}/3): {str(e)}"`. -/
def retryWarnLog (n : Nat) (e : DbError) : String :=
  "Retrying database operation (" ++ toString n ++ "/3): " ++ errStr e

/-- The `logger.error` line of `with_retries`:
`f"Database operation failed after 3 attempts: {str(e)}"`. -/
def retryFailLog (e : DbError) : String :=
  "Database operation failed after 3 attempts: " ++ errStr e

/-- `db_manager.py` `with_retries`: run the wrapped operation with the same
parameters for up to `3` attempts (`MAX_RETRIES = 3`); the environment's
behaviour at each attempt is the function `f` of the attempt index. Each
retry is logged; after the third failure a typed
`DatabaseError("Database operation failed after 3 attempts: ...")` is
raised (modelled by `Except.error`). Returns the result and the log lines. -/
def with_retries {α : Type} (f : Nat → Except DbError α) : Except DbError α × List String :=
  match f 0 with
  | .ok a => (.ok a, [])
  | .error e0 =>
    match f 1 with
    | .ok a => (.ok a, [retryWarnLog 1 e0])
    | .error e1 =>
      match f 2 with
      | .ok a => (.ok a, [retryWarnLog 1 e0, retryWarnLog 2 e1])
      | .error e2 =>
        (.error (.databaseError ("Database operation failed after 3 attempts: " ++ errStr e2)),
         [retryWarnLog 1 e0, retryWarnLog 2 e1, retryFailLog e2])

/-- What one execution attempt of a statement against the SQLite layer can
do: the connection may fail (`get_connection` returns `None`), the
execution may raise `sqlite3.Error`, or it succeeds with rows. -/
inductive QueryOutcome where
  | connFail : QueryOutcome
  | execError (msg : String) : QueryOutcome
  | success (rows : List (List String)) : QueryOutcome
deriving DecidableEq

/-- An attempt outcome as the exception/result the `with_retries` wrapper
observes through `with_connection` and `db_transaction` (a failed
connection surfaces as an error, a driver error as `DatabaseError`). -/
def outcomeToExcept : QueryOutcome → Except DbError (List (List String))
  | .connFail => .error (.databaseError "Database connection error")
  | .execError m => .error (.databaseError ("Database operation failed: " ++ m))
  | .success rows => .ok rows

/-- `db_manager.py` `DatabaseManager.execute_query` with `fetch=True`: a
single execution attempt (`script 0`); connection failure or
`sqlite3.Error` is logged, rolled back and converted to `None`, success
returns the fetched rows. No retry is performed: the remaining entries of
`script` are never consulted. -/
def execute_query_fetch (script : Nat → QueryOutcome) : Option (List (List String)) :=
  match script 0 with
  | .connFail => none
  | .execError _ => none
  | .success rows => some rows

/-- `db_manager.py` `DatabaseManager.execute_query` with `fetch=False`: a
single execution attempt (`script 0`); failures are converted to `False`,
success to `True`. No retry is performed. -/
def execute_query_write (script : Nat → QueryOutcome) : Bool :=
  match script 0 with
  | .connFail => false
  | .execError _ => false
  | .success _ => true

/-- A Python value passed as the `user` argument of `check_user_permission`:
`None`, a tuple, a dict (its entries), or some other object such as a
string. -/
inductive PyUser where
  | pyNone : PyUser
  | pyTuple (fields : List String) : PyUser
  | pyDict (entries : List (String × String)) : PyUser
  | pyStr (s : String) : PyUser
deriving DecidableEq

/-- Python truthiness of the `user` argument (`not user`). -/
def pyFalsy : PyUser → Bool
  | .pyNone => true
  | .pyTuple fields => fields.isEmpty
  | .pyDict entries => entries.isEmpty
  | .pyStr s => s.isEmpty

/-- `ROLE_HIERARCHY.get(role, 0)`. -/
def roleLevel (role : String) : Nat :=
  ((ROLE_HIERARCHY.find? (fun p => p.1 == role)).map Prod.snd).getD 0

/-- `auth.py` `check_user_permission`: falsy or tuple users are rejected
with `False`; a dict user is compared by numeric rank
(`user.get("role", "employee")`); any other truthy object reaches
`user.get` and raises `AttributeError`, modelled by `Except.error`. -/
def check_user_permission (user : PyUser) (requiredRole : String) : Except String Bool :=
  match user with
  | .pyNone => .ok false
  | .pyTuple _ => .ok false
  | .pyDict entries =>
    if entries.isEmpty then .ok false
    else
      let userRole := (entries.lookup "role").getD "employee"
      .ok (decide (roleLevel requiredRole ≤ roleLevel userRole))
  | .pyStr s =>
    if s.isEmpty then .ok false
    else .error "AttributeError: str object has no attribute get"

/-! Concrete database states used to instantiate the theorems. -/

/-- An approved employee whose stored hash was made with salt `0`. -/
def aliceEmp : Employee :=
  { id := 1, username := "alice", firstName := "Alice", lastName := "L",
    userRole := "employee", password := { salt := 0, digest := "OldPw1!a" },
    passwordChangeRequired := true, isApproved := true, lastPasswordChange := none }

/-- A database holding only `aliceEmp`. -/
def dbAlice : DB := { employees := [aliceEmp], loginAttempts := [], passwordHistory := [] }

/-- `aliceEmp` with the force-change flag clear and a fresh password change. -/
def alicePolicyEmp : Employee :=
  { aliceEmp with passwordChangeRequired := false, lastPasswordChange := some 0 }

/-- `aliceEmp` with the administrator force-change flag set. -/
def aliceFlagEmp : Employee :=
  { aliceEmp with passwordChangeRequired := true, lastPasswordChange := some 0 }

/-- Database for the password-policy checks (flag clear, not yet expired). -/
def dbPolicy : DB := { employees := [alicePolicyEmp], loginAttempts := [], passwordHistory := [] }

/-- Database for the password-policy checks (flag set). -/
def dbPolicyFlag : DB := { employees := [aliceFlagEmp], loginAttempts := [], passwordHistory := [] }

/-- An approved employee `bob` with password hash `⟨0, "Right1!a"⟩`. -/
def approvedBob : Employee :=
  { id := 3, username := "bob", firstName := "Bob", lastName := "O",
    userRole := "employee", password := { salt := 0, digest := "Right1!a" },
    passwordChangeRequired := false, isApproved := true, lastPasswordChange := none }

/-- `approvedBob` still pending admin approval. -/
def pendingBob : Employee := { approvedBob with isApproved := false }

/-- The empty database. -/
def dbEmpty : DB := { employees := [], loginAttempts := [], passwordHistory := [] }

/-- A database holding only the approved `bob`. -/
def dbApproved : DB := { employees := [approvedBob], loginAttempts := [], passwordHistory := [] }

/-- A database holding only the unapproved `bob`, no lockout row. -/
def dbPending : DB := { employees := [pendingBob], loginAttempts := [], passwordHistory := [] }

/-- The unapproved `bob` together with an active lockout row
(5 failures, locked until second 900). -/
def dbPendingLocked : DB :=
  { employees := [pendingBob],
    loginAttempts := [("bob", { failedAttempts := 5, lockoutUntil := some 900 })],
    passwordHistory := [] }

/-- A database whose password history holds one hash made with salt `0`. -/
def dbHist : DB :=
  { employees := [], loginAttempts := [],
    passwordHistory := [(7, { salt := 0, digest := "oldpw" })] }

/-- An environment whose first execution attempt raises `sqlite3.Error`
("database is locked") and whose later attempts succeed. -/
def failingScript : Nat → QueryOutcome :=
  fun n => if n = 0 then .execError "database is locked" else .success []

/-- A wrapped operation that fails on its first attempt and succeeds on
the second. -/
def retryProbe : Nat → Except DbError Nat :=
  fun n => if n = 0 then .error (.sqliteError "database is locked") else .ok 3

/-! Helper lemmas about the login-attempts table. -/

theorem find_none_of_no_match {β : Type} (u : String) (q : (String × β) → Bool)
    (hq : ∀ p, q p = true → (p.1 == u) = true) :
    ∀ l : List (String × β), (∀ x ∈ l, (x.1 == u) = false) → l.find? q = none := by
  intro l
  induction l with
  | nil => intro _; rfl
  | cons a l ih =>
    intro h
    have ha : (a.1 == u) = false := h a (by simp)
    have hqa : q a = false := by
      cases hqa2 : q a
      · rfl
      · exact absurd (hq a hqa2) (by simp [ha])
    rw [List.find?_cons, hqa]
    exact ih (fun x hx => h x (by simp [hx]))

theorem mem_filter_ne {β : Type} (u : String) (l : List (String × β)) :
    ∀ x ∈ l.filter (fun p => !(p.1 == u)), (x.1 == u) = false := by
  intro x hx
  have := List.mem_filter.mp hx
  simpa using this.2

theorem find_filter_ne_none {β : Type} (u : String) (q : (String × β) → Bool)
    (hq : ∀ p, q p = true → (p.1 == u) = true) (l : List (String × β)) :
    (l.filter (fun p => !(p.1 == u))).find? q = none :=
  find_none_of_no_match u q hq _ (mem_filter_ne u l)

theorem get_count_upsert (db : DB) (u : String) (r : LoginAttempt) (now : Nat) :
    get_failed_login_count (upsertLoginAttempt db u r) now u =
      if attemptActive now r then (r.failedAttempts, r.lockoutUntil) else (0, none) := by
  unfold get_failed_login_count upsertLoginAttempt
  rw [List.find?_cons]
  cases h : attemptActive now r with
  | true => simp [h]
  | false =>
    simp only [h, beq_self_eq_true, Bool.true_and]
    rw [find_filter_ne_none u _ (fun p hp => (Bool.and_eq_true _ _ |>.mp hp).1) db.loginAttempts]
    simp

theorem get_count_cleared (db : DB) (now t : Nat) (u : String) :
    get_failed_login_count (update_login_attempts db t u true) now u = (0, none) := by
  unfold update_login_attempts
  rw [if_pos rfl]
  unfold get_failed_login_count
  rw [find_filter_ne_none u _ (fun p hp => (Bool.and_eq_true _ _ |>.mp hp).1) db.loginAttempts]

theorem record_cleared (db : DB) (t : Nat) (u : String) :
    (update_login_attempts db t u true).loginAttempts.find? (fun p => p.1 == u) = none := by
  unfold update_login_attempts
  rw [if_pos rfl]
  exact find_filter_ne_none u _ (fun p hp => hp) db.loginAttempts

theorem ula_false_eq (db : DB) (t : Nat) (u : String) :
    update_login_attempts db t u false =
      upsertLoginAttempt db u
        { failedAttempts := (get_failed_login_count db t u).1 + 1,
          lockoutUntil := if MAX_ATTEMPTS ≤ (get_failed_login_count db t u).1 + 1
                          then some (t + LOCKOUT_MINUTES * 60) else none } := by
  unfold update_login_attempts
  rw [if_neg (by simp)]

theorem get_count_upsert_clear (db : DB) (u : String) (k t : Nat) :
    get_failed_login_count (upsertLoginAttempt db u ⟨k, none⟩) t u = (k, none) := by
  rw [get_count_upsert]
  simp [attemptActive]

theorem check_rate_limit_of_no_lockout (db : DB) (now : Nat) (u : String)
    (h : (get_failed_login_count db now u).2 = none) :
    check_rate_limit db now u = (true, none) := by
  simp only [check_rate_limit, h]

theorem lockMsg_ne_generic (k : Nat) : lockMsg k ≠ genericAuthError := by
  intro h
  have h2 : ("Account locked. Try again in " ++ toString k ++ " minutes").data
      = "Invalid username or password".data := congrArg String.data h
  rw [String.data_append, String.data_append] at h2
  have e1 : "Account locked. Try again in ".data
      = 'A' :: "ccount locked. Try again in ".data := rfl
  have e2 : "Invalid username or password".data
      = 'I' :: "nvalid username or password".data := rfl
  rw [e1, e2] at h2
  simp at h2

theorem lockMsg_ne_pending (k : Nat) : lockMsg k ≠ pendingApprovalMsg := by
  intro h
  have h2 : ("Account locked. Try again in " ++ toString k ++ " minutes").data
      = "Your account is pending admin approval".data := congrArg String.data h
  rw [String.data_append, String.data_append] at h2
  have e1 : "Account locked. Try again in ".data
      = 'A' :: "ccount locked. Try again in ".data := rfl
  have e2 : "Your account is pending admin approval".data
      = 'Y' :: "our account is pending admin approval".data := rfl
  rw [e1, e2] at h2
  simp at h2

theorem check_rate_limit_false_form (db : DB) (now : Nat) (u : String)
    (h : (check_rate_limit db now u).1 = false) :
    ∃ k, check_rate_limit db now u = (false, some (lockMsg k)) := by
  rcases hg : (get_failed_login_count db now u).2 with _ | t
  · simp only [check_rate_limit, hg] at h
    exact absurd h (by decide)
  · by_cases hcond : MAX_ATTEMPTS ≤ (get_failed_login_count db now u).1 ∧ now < t
    · exact ⟨(t - now) / 60, by simp only [check_rate_limit, hg, if_pos hcond]⟩
    · simp only [check_rate_limit, hg, if_neg hcond] at h
      exact absurd h (by decide)

theorem find_update_employees (l : List Employee) (u : String) (h : BcryptHash) :
    (l.map (fun e => if e.username == u
        then { e with password := h, passwordChangeRequired := false } else e)).find?
          (fun e => e.username == u)
      = (l.find? (fun e => e.username == u)).map
          (fun e => { e with password := h, passwordChangeRequired := false }) := by
  induction l with
  | nil => rfl
  | cons a l ih =>
    cases ha : a.username == u with
    | true =>
      have hup : ((({ a with password := h, passwordChangeRequired := false } : Employee)).username == u) = true := ha
      rw [List.map_cons, if_pos ha,
        List.find?_cons_of_pos (p := fun e : Employee => e.username == u) _ hup,
        List.find?_cons_of_pos (p := fun e : Employee => e.username == u) _ ha]
      rfl
    | false =>
      rw [List.map_cons, if_neg (by simp [ha]),
        List.find?_cons_of_neg (p := fun e : Employee => e.username == u) _ (by simp [ha]),
        List.find?_cons_of_neg (p := fun e : Employee => e.username == u) _ (by simp [ha]), ih]

theorem change_password_store_spec (db : DB) (salt : Nat) (u pw : String) (e : Employee)
    (hfind : findEmployee db u = some e) :
    (change_password_store db salt u pw).2.1 = true
    ∧ (change_password_store db salt u pw).2.2 = "Password changed successfully"
    ∧ findEmployee (change_password_store db salt u pw).1 u
        = some { e with password := hash_password salt pw, passwordChangeRequired := false } := by
  have hfind2 : db.employees.find? (fun x => x.username == u) = some e := hfind
  have hmap := find_update_employees db.employees u (hash_password salt pw)
  rw [hfind2] at hmap
  have hmem := List.mem_of_find?_eq_some hmap
  have hpred := List.find?_some hmap
  have hany : (db.employees.map (fun x => if x.username == u
      then { x with password := hash_password salt pw, passwordChangeRequired := false } else x)).any
        (fun x => x.username == u && decide (x.password = hash_password salt pw)) = true := by
    refine List.any_eq_true.mpr ⟨_, hmem, ?_⟩
    simp only [Bool.and_eq_true]
    exact ⟨hpred, by simp⟩
  unfold change_password_store
  simp only [hany]
  refine ⟨rfl, rfl, ?_⟩
  exact hmap

/-! The claims. -/

/-- C3 (confirmed): for every password `P`, `verify_password(P, hash_password(P))`
is true and `verify_password(P2, hash_password(P))` is false for `P2 ≠ P`; two
calls of `hash_password` on the same `P` with distinct fresh salts give
different outputs, yet both verify true against `P`. (bcrypt itself is the
external primitive modelled by `bcrypt_hashpw`/`bcrypt_checkpw`.) -/
theorem hash_verify_roundtrip (P P2 : String) (s1 s2 : Nat)
    (hne : P2 ≠ P) (hs : s1 ≠ s2) :
    verify_password P (hash_password s1 P) = true
    ∧ verify_password P2 (hash_password s1 P) = false
    ∧ hash_password s1 P ≠ hash_password s2 P
    ∧ verify_password P (hash_password s2 P) = true := by
  refine ⟨?_, ?_, ?_, ?_⟩
  · simp [verify_password, bcrypt_checkpw, hash_password, bcrypt_hashpw]
  · simp [verify_password, bcrypt_checkpw, hash_password, bcrypt_hashpw, hne]
  · simp [hash_password, bcrypt_hashpw, hs]
  · simp [verify_password, bcrypt_checkpw, hash_password, bcrypt_hashpw]

/-- Witness for C3 at `P := "Abcdef1!"`, `P2 := "x"`, salts `0` and `1`. -/
theorem hash_verify_roundtrip_witness :
    verify_password "Abcdef1!" (hash_password 0 "Abcdef1!") = true
    ∧ verify_password "x" (hash_password 0 "Abcdef1!") = false
    ∧ hash_password 0 "Abcdef1!" ≠ hash_password 1 "Abcdef1!"
    ∧ verify_password "Abcdef1!" (hash_password 1 "Abcdef1!") = true :=
  hash_verify_roundtrip "Abcdef1!" "x" 0 1 (by decide) (by decide)

/-- C5 (code_bug): `check_password_policy` does return `(True, reason)` when the
administrator flag is set or the expiry window has elapsed, but on the
remaining path (flag clear, `last_password_change` present and not yet
expired) the Python function falls off the end and returns `None` instead of
a pair with `must_change = False`, as evaluated here on `dbPolicy` at time 0. -/
theorem check_password_policy_falls_through :
    check_password_policy dbPolicy 0 "alice" = none
    ∧ check_password_policy dbPolicyFlag 0 "alice"
        = some (true, "Password change required by administrator")
    ∧ check_password_policy dbPolicy (PASSWORD_EXPIRY_DAYS * 86400 + 1) "alice"
        = some (true, expiredMsg) := by decide

/-- C6 (confirmed): `is_password_in_history` re-hashes the candidate with a
fresh random salt; since that salt differs from the salt of every stored
history hash, the exact-match comparison never succeeds and the function
returns `False` on every stored history — the check is a no-op. -/
theorem password_history_check_noop (db : DB) (salt eid limit : Nat) (pw : String)
    (hfresh : ∀ p ∈ db.passwordHistory, p.2.salt ≠ salt) :
    is_password_in_history db salt eid pw limit = false := by
  have hall : ∀ p ∈ (db.passwordHistory.filter (fun p => p.1 == eid)).take limit,
      decide (hash_password salt pw = p.2) = false := by
    intro p hp
    have hmem : p ∈ db.passwordHistory := (List.mem_filter.mp (List.mem_of_mem_take hp)).1
    have hsalt := hfresh p hmem
    simp only [decide_eq_false_iff_not]
    intro hEq
    exact hsalt (by rw [← hEq]; rfl)
  have hany : (List.take limit (List.filter (fun p => p.1 == eid) db.passwordHistory)).any
      (fun p => decide (hash_password salt pw = p.2)) = false :=
    List.any_eq_false.mpr (by intro x hx; simp [hall x hx])
  unfold is_password_in_history
  dsimp only
  rw [hany, ite_self]

/-- Witness for C6: a one-row history hashed with salt 0, fresh salt 1. -/
theorem password_history_check_noop_witness :
    is_password_in_history dbHist 1 7 "oldpw" 5 = false :=
  password_history_check_noop dbHist 1 7 5 "oldpw" (by decide)

/-- C1 (counterexample): `"weak"` fails the strength policy, yet
`change_password` on `dbAlice` returns success and replaces the stored
credential hash of `"alice"` — refuting the claim that `change_password`
strength-validates the new password and leaves the hash unchanged on a
weak password. -/
theorem change_password_skips_strength_validation :
    (validate_password_strength "weak").1 = false
    ∧ (change_password dbAlice 0 1 "alice" none "weak").2.1 = true
    ∧ ((findEmployee (change_password dbAlice 0 1 "alice" none "weak").1 "alice").map
        Employee.password) = some (hash_password 1 "weak")
    ∧ aliceEmp.password ≠ hash_password 1 "weak" := by decide

/-- C1 (amended): `change_password` performs no strength validation: for every
existing username, even when the new password fails the strength policy,
the reset path hashes and stores it, clears the force-change flag and
returns success. -/
theorem change_password_stores_weak_password (db : DB) (now salt : Nat) (u pw : String)
    (e : Employee) (hfind : findEmployee db u = some e)
    (hweak : (validate_password_strength pw).1 = false) :
    (change_password db now salt u none pw).2.1 = true
    ∧ (change_password db now salt u none pw).2.2 = "Password changed successfully"
    ∧ (findEmployee (change_password db now salt u none pw).1 u).map Employee.password
        = some (hash_password salt pw) := by
  have hs := change_password_store_spec db salt u pw e hfind
  have hcp : change_password db now salt u none pw = change_password_store db salt u pw := rfl
  rw [hcp]
  exact ⟨hs.1, hs.2.1, by rw [hs.2.2]; rfl⟩

/-- Witness for the amended C1 at `dbAlice` with the weak password `"weak"`. -/
theorem change_password_stores_weak_password_witness :
    (findEmployee dbAlice "alice" = some aliceEmp)
    ∧ ((validate_password_strength "weak").1 = false)
    ∧ ((change_password dbAlice 0 1 "alice" none "weak").2.1 = true
       ∧ (change_password dbAlice 0 1 "alice" none "weak").2.2 = "Password changed successfully"
       ∧ (findEmployee (change_password dbAlice 0 1 "alice" none "weak").1 "alice").map
           Employee.password = some (hash_password 1 "weak")) :=
  ⟨by decide, by decide,
   change_password_stores_weak_password dbAlice 0 1 "alice" "weak" aliceEmp (by decide) (by decide)⟩

/-- C10 (confirmed): `change_password(username, None, new_password)` performs
no authorization or caller-identity check: for every existing username it
unconditionally hashes and stores the new password and clears the
force-change flag. -/
theorem reset_path_unconditional_store (db : DB) (now salt : Nat) (u pw : String)
    (e : Employee) (hfind : findEmployee db u = some e) :
    (change_password db now salt u none pw).2.1 = true
    ∧ (change_password db now salt u none pw).2.2 = "Password changed successfully"
    ∧ findEmployee (change_password db now salt u none pw).1 u
        = some { e with password := hash_password salt pw, passwordChangeRequired := false } :=
  change_password_store_spec db salt u pw e hfind

/-- Witness for C10 at `dbAlice` with the new password `"NewPass1!"`. -/
theorem reset_path_unconditional_store_witness :
    (findEmployee dbAlice "alice" = some aliceEmp)
    ∧ ((change_password dbAlice 0 2 "alice" none "NewPass1!").2.1 = true
       ∧ (change_password dbAlice 0 2 "alice" none "NewPass1!").2.2 = "Password changed successfully"
       ∧ findEmployee (change_password dbAlice 0 2 "alice" none "NewPass1!").1 "alice"
           = some { aliceEmp with
               password := hash_password 2 "NewPass1!"
               passwordChangeRequired := false }) :=
  ⟨by decide, reset_path_unconditional_store dbAlice 0 2 "alice" "NewPass1!" aliceEmp (by decide)⟩

/-- C2 (confirmed): starting from a username the read path sees as having no
active lockout record, each of the first 4 consecutive failures leaves
`check_rate_limit` allowed; the 5th failure stores `lockout_until = now + 15
minutes`; while that timestamp is in the future `check_rate_limit` returns
`(False, message)` reporting the remaining minutes rounded down; and a
successful authentication deletes the record, resetting the counter to 0. -/
theorem lockout_state_machine (db db2 : DB) (u : String) (t1 t2 t3 t4 t5 ta tc tc2 : Nat)
    (h0 : get_failed_login_count db t1 u = (0, none))
    (hc : tc < t5 + 15 * 60) :
    check_rate_limit (failTimes db u [t1]) ta u = (true, none)
    ∧ check_rate_limit (failTimes db u [t1, t2]) ta u = (true, none)
    ∧ check_rate_limit (failTimes db u [t1, t2, t3]) ta u = (true, none)
    ∧ check_rate_limit (failTimes db u [t1, t2, t3, t4]) ta u = (true, none)
    ∧ (failTimes db u [t1, t2, t3, t4, t5]).loginAttempts.find? (fun p => p.1 == u)
        = some (u, ⟨5, some (t5 + 15 * 60)⟩)
    ∧ check_rate_limit (failTimes db u [t1, t2, t3, t4, t5]) tc u
        = (false, some (lockMsg ((t5 + 15 * 60 - tc) / 60)))
    ∧ (update_login_attempts db2 tc2 u true).loginAttempts.find? (fun p => p.1 == u) = none
    ∧ get_failed_login_count (update_login_attempts db2 tc2 u true) tc2 u = (0, none) := by
  have e1 : update_login_attempts db t1 u false = upsertLoginAttempt db u ⟨1, none⟩ := by
    rw [ula_false_eq, h0]
    norm_num [MAX_ATTEMPTS]
  have e2 : update_login_attempts (upsertLoginAttempt db u ⟨1, none⟩) t2 u false
      = upsertLoginAttempt (upsertLoginAttempt db u ⟨1, none⟩) u ⟨2, none⟩ := by
    rw [ula_false_eq, get_count_upsert_clear]
    norm_num [MAX_ATTEMPTS]
  have e3 : update_login_attempts (upsertLoginAttempt (upsertLoginAttempt db u ⟨1, none⟩) u ⟨2, none⟩) t3 u false
      = upsertLoginAttempt (upsertLoginAttempt (upsertLoginAttempt db u ⟨1, none⟩) u ⟨2, none⟩) u ⟨3, none⟩ := by
    rw [ula_false_eq, get_count_upsert_clear]
    norm_num [MAX_ATTEMPTS]
  have e4 : update_login_attempts (upsertLoginAttempt (upsertLoginAttempt (upsertLoginAttempt db u ⟨1, none⟩) u ⟨2, none⟩) u ⟨3, none⟩) t4 u false
      = upsertLoginAttempt (upsertLoginAttempt (upsertLoginAttempt (upsertLoginAttempt db u ⟨1, none⟩) u ⟨2, none⟩) u ⟨3, none⟩) u ⟨4, none⟩ := by
    rw [ula_false_eq, get_count_upsert_clear]
    norm_num [MAX_ATTEMPTS]
  have e5 : update_login_attempts (upsertLoginAttempt (upsertLoginAttempt (upsertLoginAttempt (upsertLoginAttempt db u ⟨1, none⟩) u ⟨2, none⟩) u ⟨3, none⟩) u ⟨4, none⟩) t5 u false
      = upsertLoginAttempt (upsertLoginAttempt (upsertLoginAttempt (upsertLoginAttempt (upsertLoginAttempt db u ⟨1, none⟩) u ⟨2, none⟩) u ⟨3, none⟩) u ⟨4, none⟩) u ⟨5, some (t5 + 15 * 60)⟩ := by
    rw [ula_false_eq, get_count_upsert_clear]
    norm_num [MAX_ATTEMPTS, LOCKOUT_MINUTES]
  refine ⟨?_, ?_, ?_, ?_, ?_, ?_, ?_, ?_⟩
  · simp only [failTimes, e1]
    exact check_rate_limit_of_no_lockout _ _ _ (by rw [get_count_upsert_clear])
  · simp only [failTimes, e1, e2]
    exact check_rate_limit_of_no_lockout _ _ _ (by rw [get_count_upsert_clear])
  · simp only [failTimes, e1, e2, e3]
    exact check_rate_limit_of_no_lockout _ _ _ (by rw [get_count_upsert_clear])
  · simp only [failTimes, e1, e2, e3, e4]
    exact check_rate_limit_of_no_lockout _ _ _ (by rw [get_count_upsert_clear])
  · simp only [failTimes, e1, e2, e3, e4, e5]
    simp only [upsertLoginAttempt]
    rw [List.find?_cons]
    simp
  · simp only [failTimes, e1, e2, e3, e4, e5]
    have g5 : get_failed_login_count (upsertLoginAttempt (upsertLoginAttempt (upsertLoginAttempt (upsertLoginAttempt (upsertLoginAttempt db u ⟨1, none⟩) u ⟨2, none⟩) u ⟨3, none⟩) u ⟨4, none⟩) u ⟨5, some (t5 + 15 * 60)⟩) tc u
        = (5, some (t5 + 15 * 60)) := by
      rw [get_count_upsert]
      simp [attemptActive, hc]
    simp only [check_rate_limit, g5]
    simp [MAX_ATTEMPTS, hc]
  · exact record_cleared db2 tc2 u
  · exact get_count_cleared db2 tc2 tc2 u

/-- Witness for C2 on the empty database with all events at time 0. -/
theorem lockout_state_machine_witness :
    (get_failed_login_count dbEmpty 0 "bob" = (0, none))
    ∧ (0 < 0 + 15 * 60)
    ∧ (check_rate_limit (failTimes dbEmpty "bob" [0]) 0 "bob" = (true, none)
       ∧ check_rate_limit (failTimes dbEmpty "bob" [0, 0]) 0 "bob" = (true, none)
       ∧ check_rate_limit (failTimes dbEmpty "bob" [0, 0, 0]) 0 "bob" = (true, none)
       ∧ check_rate_limit (failTimes dbEmpty "bob" [0, 0, 0, 0]) 0 "bob" = (true, none)
       ∧ (failTimes dbEmpty "bob" [0, 0, 0, 0, 0]).loginAttempts.find? (fun p => p.1 == "bob")
           = some ("bob", ⟨5, some (0 + 15 * 60)⟩)
       ∧ check_rate_limit (failTimes dbEmpty "bob" [0, 0, 0, 0, 0]) 0 "bob"
           = (false, some (lockMsg ((0 + 15 * 60 - 0) / 60)))
       ∧ (update_login_attempts dbEmpty 0 "bob" true).loginAttempts.find?
           (fun p => p.1 == "bob") = none
       ∧ get_failed_login_count (update_login_attempts dbEmpty 0 "bob" true) 0 "bob"
           = (0, none)) :=
  ⟨by decide, by decide,
   lockout_state_machine dbEmpty dbEmpty "bob" 0 0 0 0 0 0 0 0 (by decide) (by decide)⟩

/-- C4 (confirmed): `authenticate_user` returns the identical generic
`"Invalid username or password"` both for an unknown username and for a
wrong password, while a locked-out account receives the distinct
`"Account locked. ..."` message and a pending account the distinct
`"Your account is pending admin approval"` message. -/
theorem auth_error_message_policy (db : DB) (now : Nat) (u p : String) :
    ((check_rate_limit db now u).1 = true → findEmployee db u = none →
        (authenticate_user db now u p).2.2 = some genericAuthError)
    ∧ (∀ e : Employee, (check_rate_limit db now u).1 = true → findEmployee db u = some e →
        e.isApproved = true → verify_password p e.password = false →
        (authenticate_user db now u p).2.2 = some genericAuthError)
    ∧ (∀ e : Employee, (check_rate_limit db now u).1 = true → findEmployee db u = some e →
        e.isApproved = false →
        (authenticate_user db now u p).2.2 = some pendingApprovalMsg)
    ∧ ((check_rate_limit db now u).1 = false →
        ∃ k, (authenticate_user db now u p).2.2 = some (lockMsg k)
          ∧ lockMsg k ≠ genericAuthError ∧ lockMsg k ≠ pendingApprovalMsg)
    ∧ pendingApprovalMsg ≠ genericAuthError := by
  refine ⟨?_, ?_, ?_, ?_, by decide⟩
  · intro hrl hnone
    simp [authenticate_user, hrl, hnone]
  · intro e hrl hfound happr hverify
    simp [authenticate_user, hrl, hfound, happr, hverify]
  · intro e hrl hfound happr
    simp [authenticate_user, hrl, hfound, happr]
  · intro hrl
    obtain ⟨k, hk⟩ := check_rate_limit_false_form db now u hrl
    refine ⟨k, ?_, lockMsg_ne_generic k, lockMsg_ne_pending k⟩
    simp [authenticate_user, hk]

/-- Witness for C4: unknown username on `dbEmpty`, wrong password on
`dbApproved`, pending account on `dbPending`. -/
theorem auth_error_message_policy_witness :
    ((check_rate_limit dbEmpty 0 "bob").1 = true)
    ∧ (findEmployee dbEmpty "bob" = none)
    ∧ ((authenticate_user dbEmpty 0 "bob" "x").2.2 = some genericAuthError)
    ∧ (findEmployee dbApproved "bob" = some approvedBob)
    ∧ (approvedBob.isApproved = true)
    ∧ (verify_password "x" approvedBob.password = false)
    ∧ ((authenticate_user dbApproved 0 "bob" "x").2.2 = some genericAuthError)
    ∧ (findEmployee dbPending "bob" = some pendingBob)
    ∧ (pendingBob.isApproved = false)
    ∧ ((authenticate_user dbPending 0 "bob" "x").2.2 = some pendingApprovalMsg) :=
  ⟨by decide, by decide,
   (auth_error_message_policy dbEmpty 0 "bob" "x").1 (by decide) (by decide),
   by decide, by decide, by decide,
   (auth_error_message_policy dbApproved 0 "bob" "x").2.1 approvedBob
     (by decide) (by decide) (by decide) (by decide),
   by decide, by decide,
   (auth_error_message_policy dbPending 0 "bob" "x").2.2.1 pendingBob
     (by decide) (by decide) (by decide)⟩

/-- C7 (counterexample): a store operation whose first attempt raises
`sqlite3.Error` and would succeed if retried: `DatabaseManager.execute_query`
— the executor the authentication core calls — returns a plain failure after
the single attempt with no retry, even though the `with_retries` wrapper
run on the same attempt script succeeds; so not every failed store
operation is re-attempted. -/
theorem store_retry_counterexample :
    execute_query_write failingScript = false
    ∧ execute_query_fetch failingScript = none
    ∧ (with_retries (fun n => outcomeToExcept (failingScript n))).1 = .ok [] :=
  ⟨rfl, rfl, rfl⟩

/-- C7 (amended): operations wrapped by `with_retries` are re-attempted up to
3 times with the same parameters, each retry logged, and after exhausting
retries a typed `DatabaseError` is raised to the caller, never silently
swallowed; `DatabaseManager.execute_query` performs exactly one attempt:
its result depends only on the first attempt outcome, and a failing first
attempt yields an untyped failure result (`False`/`None`) with no retry. -/
theorem retry_policy {α : Type} (f : Nat → Except DbError α) (a : α) (e0 e1 e2 : DbError)
    (script script2 : Nat → QueryOutcome) (m : String) :
    (f 0 = .ok a → with_retries f = (.ok a, []))
    ∧ (f 0 = .error e0 → f 1 = .ok a → with_retries f = (.ok a, [retryWarnLog 1 e0]))
    ∧ (f 0 = .error e0 → f 1 = .error e1 → f 2 = .ok a →
        with_retries f = (.ok a, [retryWarnLog 1 e0, retryWarnLog 2 e1]))
    ∧ (f 0 = .error e0 → f 1 = .error e1 → f 2 = .error e2 →
        with_retries f
          = (.error (.databaseError ("Database operation failed after 3 attempts: " ++ errStr e2)),
             [retryWarnLog 1 e0, retryWarnLog 2 e1, retryFailLog e2]))
    ∧ (script 0 = script2 0 →
        execute_query_write script = execute_query_write script2
        ∧ execute_query_fetch script = execute_query_fetch script2)
    ∧ (script 0 = .execError m →
        execute_query_write script = false ∧ execute_query_fetch script = none) := by
  refine ⟨?_, ?_, ?_, ?_, ?_, ?_⟩
  · intro h0
    simp [with_retries, h0]
  · intro h0 h1
    simp [with_retries, h0, h1]
  · intro h0 h1 h2
    simp [with_retries, h0, h1, h2]
  · intro h0 h1 h2
    simp [with_retries, h0, h1, h2]
  · intro h
    constructor
    · unfold execute_query_write
      rw [h]
    · unfold execute_query_fetch
      rw [h]
  · intro h
    constructor
    · unfold execute_query_write
      rw [h]
    · unfold execute_query_fetch
      rw [h]

/-- Witness for C7: `retryProbe` fails once then succeeds, `failingScript`
fails its first attempt. -/
theorem retry_policy_witness :
    (retryProbe 0 = .error (.sqliteError "database is locked"))
    ∧ (retryProbe 1 = .ok 3)
    ∧ (with_retries retryProbe = (.ok 3, [retryWarnLog 1 (.sqliteError "database is locked")]))
    ∧ (failingScript 0 = .execError "database is locked")
    ∧ (execute_query_write failingScript = false ∧ execute_query_fetch failingScript = none) :=
  ⟨rfl, rfl,
   (retry_policy retryProbe 3 (.sqliteError "database is locked")
     (.sqliteError "database is locked") (.sqliteError "database is locked")
     failingScript failingScript "database is locked").2.1 rfl rfl,
   rfl,
   (retry_policy retryProbe 3 (.sqliteError "database is locked")
     (.sqliteError "database is locked") (.sqliteError "database is locked")
     failingScript failingScript "database is locked").2.2.2.2.2 rfl⟩

/-- C8 (counterexample): a truthy non-dict, non-tuple user object (the string
`"guest"`) makes `check_user_permission` reach `user.get` and raise
`AttributeError` instead of returning `False` — refuting the claim that any
malformed (non-dict) user object yields `False`. -/
theorem permission_nondict_raises :
    check_user_permission (.pyStr "guest") "employee"
        = .error "AttributeError: str object has no attribute get"
    ∧ check_user_permission (.pyStr "guest") "employee" ≠ .ok false :=
  ⟨rfl, fun h => nomatch h⟩

/-- C8 (amended): `check_user_permission` compares numeric role ranks — a
manager (rank 2) passes an employee check (rank 1) and fails an admin check
(rank 3); `corrections_supervisor` behaves identically to `admin` (both
rank 3); falsy users (`None`, empty dict, empty string) and tuples of any
size get `False`; but a truthy non-dict non-tuple object raises
`AttributeError` instead of returning `False`. -/
theorem role_rank_semantics (fields : List String) (r s : String) (hs : s ≠ "") :
    check_user_permission (.pyDict [("role", "manager")]) "employee" = .ok true
    ∧ check_user_permission (.pyDict [("role", "manager")]) "admin" = .ok false
    ∧ check_user_permission (.pyDict [("role", "corrections_supervisor")]) "admin" = .ok true
    ∧ check_user_permission (.pyDict [("role", "corrections_supervisor")]) r
        = check_user_permission (.pyDict [("role", "admin")]) r
    ∧ check_user_permission .pyNone r = .ok false
    ∧ check_user_permission (.pyTuple fields) r = .ok false
    ∧ check_user_permission (.pyDict []) r = .ok false
    ∧ check_user_permission (.pyStr "") r = .ok false
    ∧ check_user_permission (.pyStr s) r
        = .error "AttributeError: str object has no attribute get" := by
  refine ⟨rfl, rfl, rfl, rfl, rfl, rfl, rfl, rfl, ?_⟩
  unfold check_user_permission
  dsimp only
  rw [if_neg (by simp [String.isEmpty_iff, hs])]

/-- Witness for C8 with `fields := ["a"]`, required role `"admin"`, and the
nonempty string user `"guest"`. -/
theorem role_rank_semantics_witness :
    ("guest" ≠ "")
    ∧ (check_user_permission (.pyDict [("role", "manager")]) "employee" = .ok true
       ∧ check_user_permission (.pyDict [("role", "manager")]) "admin" = .ok false
       ∧ check_user_permission (.pyDict [("role", "corrections_supervisor")]) "admin" = .ok true
       ∧ check_user_permission (.pyDict [("role", "corrections_supervisor")]) "admin"
           = check_user_permission (.pyDict [("role", "admin")]) "admin"
       ∧ check_user_permission .pyNone "admin" = .ok false
       ∧ check_user_permission (.pyTuple ["a"]) "admin" = .ok false
       ∧ check_user_permission (.pyDict []) "admin" = .ok false
       ∧ check_user_permission (.pyStr "") "admin" = .ok false
       ∧ check_user_permission (.pyStr "guest") "admin"
           = .error "AttributeError: str object has no attribute get") :=
  ⟨by decide, role_rank_semantics ["a"] "admin" "guest" (by decide)⟩

/-- C9 (counterexample): an existing but unapproved account that also has an
active lockout row receives the lockout message, not
`"Your account is pending admin approval"` — refuting the unconditional
return value stated in the claim (even with the correct password). -/
theorem pending_lockout_message_counterexample :
    findEmployee dbPendingLocked "bob" = some pendingBob
    ∧ pendingBob.isApproved = false
    ∧ authenticate_user dbPendingLocked 0 "bob" "Right1!a"
        = (dbPendingLocked, none, some (lockMsg 15))
    ∧ lockMsg 15 ≠ pendingApprovalMsg := by decide

/-- C9 (amended): for every existing but unapproved account, the result of
`authenticate_user` is independent of the supplied password, the database
(hence the failed-login table) is left unchanged, and no user is returned;
whenever the rate limiter allows the attempt, the result is exactly
`(None, "Your account is pending admin approval")` — under an active
lockout the lockout message is returned instead, still independent of the
password. -/
theorem unapproved_password_independent (db : DB) (now : Nat) (u p p2 : String) (e : Employee)
    (hfind : findEmployee db u = some e) (hunappr : e.isApproved = false) :
    authenticate_user db now u p = authenticate_user db now u p2
    ∧ (authenticate_user db now u p).1 = db
    ∧ (authenticate_user db now u p).2.1 = none
    ∧ ((check_rate_limit db now u).1 = true →
        authenticate_user db now u p = (db, none, some pendingApprovalMsg)) := by
  cases hrl : (check_rate_limit db now u).1 with
  | false => refine ⟨?_, ?_, ?_, ?_⟩ <;> simp [authenticate_user, hrl]
  | true => refine ⟨?_, ?_, ?_, ?_⟩ <;> simp [authenticate_user, hrl, hfind, hunappr]

/-- Witness for C9 on `dbPending` with two different passwords. -/
theorem unapproved_password_independent_witness :
    (findEmployee dbPending "bob" = some pendingBob)
    ∧ (pendingBob.isApproved = false)
    ∧ authenticate_user dbPending 0 "bob" "p1" = authenticate_user dbPending 0 "bob" "p2"
    ∧ authenticate_user dbPending 0 "bob" "p1" = (dbPending, none, some pendingApprovalMsg) :=
  have h := unapproved_password_independent dbPending 0 "bob" "p1" "p2" pendingBob
    (by decide) (by decide)
  ⟨by decide, by decide, h.1, h.2.2.2 (by decide)⟩

end RadioTrack
